import Mathlib

set_option maxHeartbeats 1000000

/-!
Shallow embedding of the ChatLaw backend consultation core
(`src/backend/app.py`): the knowledge graph, the keyword classifier,
the regex-based entity extraction, the adaptive question generator,
the report analyzer and the session answer operation, together with
theorems settling the specification claims.
-/

/-! ## String helpers modelling the Python primitives -/

/-- Python whitespace characters (`str.strip` / `\s`, ASCII range). -/
def isPySpace (c : Char) : Bool :=
  c = ' ' || c = '\t' || c = '\n' || c = '\r' || c = Char.ofNat 11 || c = Char.ofNat 12

/-- Python `str.strip()` on a character list: drop whitespace at both ends. -/
def stripList (l : List Char) : List Char :=
  ((l.dropWhile isPySpace).reverse.dropWhile isPySpace).reverse

/-- Python `str.strip()`. -/
def pyStrip (s : String) : String := ⟨stripList s.data⟩

/-- Python `str.lower()` (ASCII range). -/
def pyLower (s : String) : String := ⟨s.data.map Char.toLower⟩

/-- Python `str.upper()` (ASCII range). -/
def pyUpper (s : String) : String := ⟨s.data.map Char.toUpper⟩

/-- Does the second list start with the first one? -/
def leadsWith : List Char → List Char → Bool
  | [], _ => true
  | _ :: _, [] => false
  | a :: as, b :: bs => a == b && leadsWith as bs

/-- Substring test on character lists (Python `needle in hay`). -/
def listContains (needle : List Char) : List Char → Bool
  | [] => leadsWith needle []
  | c :: t => leadsWith needle (c :: t) || listContains needle t

/-- Python `needle in hay` on strings. -/
def pyContains (hay needle : String) : Bool := listContains needle.data hay.data

/-- First-seen-order deduplication (Python `list(dict.fromkeys(v))`). -/
def dedupFirst : List String → List String
  | [] => []
  | a :: l => a :: (dedupFirst l).filter (fun b => b != a)

/-! ## Ordered association lists modelling Python dicts -/

/-- Lookup in an insertion-ordered association list (Python `d.get(k)`). -/
def alistGet? {α : Type} (l : List (String × α)) (k : String) : Option α :=
  (l.find? (fun p => p.1 == k)).map Prod.snd

/-- Update-or-append preserving key order (Python `d[k] = v`). -/
def alistSet {α : Type} : List (String × α) → String → α → List (String × α)
  | [], k, v => [(k, v)]
  | p :: t, k, v => if p.1 == k then (k, v) :: t else p :: alistSet t k v

/-! ## KnowledgeGraph (`class KnowledgeGraph`) -/

structure KnowledgeGraph where
  entities : List (String × List String)
  relations : List String
  context : List (String × String)
deriving DecidableEq

/-- `KnowledgeGraph.__init__`: empty entity map, relations and context. -/
def KnowledgeGraph.empty : KnowledgeGraph := ⟨[], [], []⟩

/-- `KnowledgeGraph.add_entity`: guarded by Python truthiness of `value` and
`value.strip()`; the membership test uses the untrimmed `value`, while the
append stores `value.strip()`.  The key is materialised by the `defaultdict`
access, so a fresh key is appended at the end of the entity map. -/
def KnowledgeGraph.add_entity (kg : KnowledgeGraph) (entity_type value : String) :
    KnowledgeGraph :=
  if value ≠ "" ∧ pyStrip value ≠ "" then
    match alistGet? kg.entities entity_type with
    | none => { kg with entities := kg.entities ++ [(entity_type, [pyStrip value])] }
    | some l =>
      if value ∈ l then kg
      else { kg with entities := alistSet kg.entities entity_type (l ++ [pyStrip value]) }
  else kg

/-- `KnowledgeGraph.set_context`: unconditional overwrite. -/
def KnowledgeGraph.set_context (kg : KnowledgeGraph) (key value : String) :
    KnowledgeGraph :=
  { kg with context := alistSet kg.context key value }

/-- Every entity entry is non-blank (not empty and not whitespace-only). -/
def entriesNonBlank (kg : KnowledgeGraph) : Prop :=
  ∀ p ∈ kg.entities, ∀ e ∈ p.2, ∃ c ∈ e.data, isPySpace c = false

/-- No entity-type list contains a duplicate. -/
def entriesNodup (kg : KnowledgeGraph) : Prop :=
  ∀ p ∈ kg.entities, p.2.Nodup

/-! ## SmartClassifierAgent (`initial_classify`) -/

/-- The `criminal` keyword list of `SmartClassifierAgent.case_keywords`. -/
def criminalKeywords : List String :=
  ["theft", "stolen", "robbery", "assault", "murder", "rape", "dacoity",
   "fir", "police", "crime", "burglar", "pickpocket", "extortion", "blackmail"]

/-- The `family` keyword list of `SmartClassifierAgent.case_keywords`. -/
def familyKeywords : List String :=
  ["divorce", "marriage", "custody", "alimony", "maintenance", "dowry",
   "wife", "husband", "domestic", "separation", "child", "guardian"]

/-- The `property` keyword list of `SmartClassifierAgent.case_keywords`. -/
def propertyKeywords : List String :=
  ["land", "boundary", "inheritance", "encroachment", "tenant",
   "landlord", "eviction", "deed", "title", "plot", "mutation"]

/-- The `contract` keyword list of `SmartClassifierAgent.case_keywords`. -/
def contractKeywords : List String :=
  ["agreement", "breach", "contract", "payment", "outstanding",
   "invoice", "debt", "loan", "delivery", "default"]

/-- `SmartClassifierAgent.case_keywords` in declaration order. -/
def case_keywords : List (String × List String) :=
  [("criminal", criminalKeywords), ("family", familyKeywords),
   ("property", propertyKeywords), ("contract", contractKeywords)]

/-- `sum(1 for kw in keywords if kw in t)`. -/
def kwScore (keywords : List String) (t : String) : Nat :=
  (keywords.filter (fun kw => pyContains t kw)).length

/-- Python `max(items, key=val)` over a non-empty association list: the first
maximal entry wins because later entries replace only on a strictly larger
value. -/
def pyMaxByVal (dflt : String × Nat) : List (String × Nat) → String × Nat
  | [] => dflt
  | x :: rest => rest.foldl (fun best p => if p.2 > best.2 then p else best) x

/-- `SmartClassifierAgent.initial_classify`. -/
def initial_classify (query : String) : String × ℚ :=
  let q := pyLower query
  let scores := case_keywords.map (fun p => (p.1, kwScore p.2 q))
  if (scores.map Prod.snd).foldl max 0 = 0 then ("general", 1/2)
  else
    let best := pyMaxByVal ("general", 0) scores
    (best.1, min ((best.2 : ℚ) / 5) 1)

/-! ## AdaptiveQuestionGenerator -/

/-- The `murder` list of `AdaptiveQuestionGenerator.OFFENSE_KEYWORDS`. -/
def murderKeywords : List String :=
  ["murder", "killed", "homicide", "stabbed", "shot", "strangled",
   "burned", "ipc 302", "302"]

/-- The `theft` list of `AdaptiveQuestionGenerator.OFFENSE_KEYWORDS`. -/
def theftKeywords : List String :=
  ["theft", "stolen", "pickpocket", "burglary", "phone was stolen",
   "ipc 379", "379"]

/-- The `robbery` list of `AdaptiveQuestionGenerator.OFFENSE_KEYWORDS`. -/
def robberyKeywords : List String :=
  ["robbery", "dacoity", "snatched", "armed", "weapon", "force",
   "ipc 392", "392", "395", "396"]

/-- The `assault` list of `AdaptiveQuestionGenerator.OFFENSE_KEYWORDS`. -/
def assaultKeywords : List String :=
  ["assault", "beat", "injury", "attack", "fight", "ipc 323",
   "324", "325", "326"]

/-- `AdaptiveQuestionGenerator.OFFENSE_KEYWORDS` in declaration order. -/
def OFFENSE_KEYWORDS : List (String × List String) :=
  [("murder", murderKeywords), ("theft", theftKeywords),
   ("robbery", robberyKeywords), ("assault", assaultKeywords)]

/-- `AdaptiveQuestionGenerator.detect_crime_subtype`: fold with a strict
improvement test starting from `("theft", 0)`. -/
def detect_crime_subtype (text : String) : String :=
  let t := pyLower text
  (OFFENSE_KEYWORDS.foldl
    (fun best p => if kwScore p.2 t > best.2 then (p.1, kwScore p.2 t) else best)
    ("theft", 0)).1

/-- `QUESTION_TEMPLATES['murder']`. -/
def murderTemplates : List (String × List String) :=
  [("time", ["When did the incident occur?", "Approximate time of death known?"]),
   ("location", ["Where did the incident happen?", "Where was the body found?"]),
   ("relationship", ["What was the relationship between accused and victim?",
      "Any prior dispute?"]),
   ("weapon", ["What weapon was used? (knife/firearm/blunt object)",
      "Was the weapon recovered?"]),
   ("evidence", ["Post-mortem report available?", "Any CCTV or eyewitnesses?"]),
   ("police", ["FIR filed? Which police station?", "Any arrests made?"])]

/-- `QUESTION_TEMPLATES['robbery']`. -/
def robberyTemplates : List (String × List String) :=
  [("time", ["When did the robbery occur?"]),
   ("location", ["Where exactly did it happen? (street / shop / home)"]),
   ("force", ["Was a weapon or threat used?", "Any injuries?"]),
   ("property", ["What items or money were taken?"]),
   ("evidence", ["Any CCTV or witnesses?", "Police informed? FIR filed?"])]

/-- `QUESTION_TEMPLATES['theft']`. -/
def theftTemplates : List (String × List String) :=
  [("time", ["When was the item last seen?", "When did you notice it missing?"]),
   ("location", ["Where was the theft location?"]),
   ("property", ["What item was stolen? (model/serial/IMEI)"]),
   ("evidence", ["CCTV or witnesses?", "Proof of ownership available?"]),
   ("police", ["FIR filed? Which station?"])]

/-- `QUESTION_TEMPLATES['assault']`. -/
def assaultTemplates : List (String × List String) :=
  [("time", ["When did the assault occur?"]),
   ("location", ["Where did it happen?"]),
   ("injury", ["What injuries occurred? Medical report available?"]),
   ("cause", ["Was there a dispute or trigger?"]),
   ("evidence", ["CCTV or witnesses?", "Any hospital or police report?"])]

/-- `QUESTION_TEMPLATES['property']`. -/
def propertyTemplates : List (String × List String) :=
  [("type", ["What type of property dispute? (land/house/inheritance/tenant)"]),
   ("location", ["Where is the property located? (address/survey number)"]),
   ("ownership", ["Do you have ownership documents? (sale deed/title deed)"]),
   ("dispute", ["What is the exact nature of the dispute?"]),
   ("timeline", ["When did the dispute start?"]),
   ("parties", ["Who are the other parties involved?"]),
   ("documents", ["Do you have: mutation records, property tax receipts, court orders?"])]

/-- `QUESTION_TEMPLATES['family']`. -/
def familyTemplates : List (String × List String) :=
  [("type", ["What is the family matter? (divorce/custody/maintenance/inheritance)"]),
   ("marriage", ["When and where did the marriage take place?"]),
   ("duration", ["How long have you been married/separated?"]),
   ("children", ["Do you have children? If yes, their ages?"]),
   ("grounds", ["What are the grounds for divorce/dispute?"]),
   ("attempts", ["Have you tried mediation or counseling?"]),
   ("documents", ["Do you have: marriage certificate, proof of income, other relevant documents?"])]

/-- `QUESTION_TEMPLATES['contract']`. -/
def contractTemplates : List (String × List String) :=
  [("type", ["What type of agreement? (sale/loan/service/employment)"]),
   ("date", ["When was the contract signed?"]),
   ("amount", ["What is the contract value/amount involved?"]),
   ("breach", ["How has the contract been breached?"]),
   ("timeline", ["When did the breach occur?"]),
   ("written", ["Do you have a written agreement?"]),
   ("remedy", ["What remedy are you seeking? (refund/specific performance/damages)"])]

/-- `QUESTION_TEMPLATES['general']`. -/
def generalTemplates : List (String × List String) :=
  [("issue", ["Please describe your legal issue in detail"]),
   ("parties", ["Who are the parties involved?"]),
   ("timeline", ["When did this issue arise?"]),
   ("documents", ["Do you have any relevant documents?"]),
   ("urgency", ["Is this matter urgent?"])]

/-- `AdaptiveQuestionGenerator.QUESTION_TEMPLATES` in declaration order. -/
def QUESTION_TEMPLATES : List (String × List (String × List String)) :=
  [("murder", murderTemplates), ("robbery", robberyTemplates),
   ("theft", theftTemplates), ("assault", assaultTemplates),
   ("property", propertyTemplates), ("family", familyTemplates),
   ("contract", contractTemplates), ("general", generalTemplates)]

/-- The topic loop of `generate_next`: per topic, the questions not yet in
`asked`; the first such question of the first non-exhausted topic wins. -/
def generate_from (templates : List (String × List String)) (asked : List String) :
    Option String :=
  match templates with
  | [] => none
  | (_, questions) :: rest =>
    match questions.filter (fun q => !asked.contains q) with
    | [] => generate_from rest asked
    | q :: _ => some q

/-- Template-set resolution of `generate_next`: for `criminal` use the stored
subtype (Python `or` falls through on the empty string) or detect it from the
situation, falling back to the theft set; otherwise use the case type's own
set, falling back to the general set. -/
def resolve_templates (case_type : String) (kg : KnowledgeGraph) :
    List (String × List String) :=
  if case_type = "criminal" then
    let situation := (alistGet? kg.context "situation").getD ""
    let subtype :=
      match alistGet? kg.context "criminal_subtype" with
      | some s => if s = "" then detect_crime_subtype situation else s
      | none => detect_crime_subtype situation
    (alistGet? QUESTION_TEMPLATES subtype).getD theftTemplates
  else
    (alistGet? QUESTION_TEMPLATES case_type).getD generalTemplates

/-- `AdaptiveQuestionGenerator.generate_next`. -/
def generate_next (case_type : String) (kg : KnowledgeGraph) (asked : List String) :
    Option String :=
  generate_from (resolve_templates case_type kg) asked

/-! ## EntityExtractionAgent (`extract`)

The three `re.findall` patterns of the source are realised as direct
left-to-right scanners with the same greedy/backtracking semantics
(ASCII character classes, word boundaries as word/non-word transitions,
leftmost non-overlapping matches). -/

/-- Regex `\w` (ASCII range). -/
def isWordChar (c : Char) : Bool := c.isAlphanum || c = '_'

/-- `\w` on an optional character; the start/end of the text is non-word. -/
def isWordO : Option Char → Bool
  | none => false
  | some c => isWordChar c

/-- The date separators (dash or slash character class). -/
def isSepChar (c : Char) : Bool := c = '-' || c = '/'

/-- Regex `[A-Z]`. -/
def isUpperAZ (c : Char) : Bool := 'A' ≤ c && c ≤ 'Z'

/-- Regex `[a-z]`. -/
def isLowerAZ (c : Char) : Bool := 'a' ≤ c && c ≤ 'z'

/-- Regex `[\d,]` of the currency pattern. -/
def isValChar (c : Char) : Bool := c.isDigit || c = ','

/-- Take exactly `n` characters satisfying `p` (a `p{n}` chunk). -/
def takeCount (p : Char → Bool) : Nat → List Char → Option (List Char × List Char)
  | 0, s => some ([], s)
  | _ + 1, [] => none
  | n + 1, c :: t =>
    if p c then (takeCount p n t).map (fun r => (c :: r.1, r.2)) else none

/-- Maximal run of characters satisfying `p` (greedy `p*`). -/
def spanTake (p : Char → Bool) : List Char → List Char × List Char
  | [] => ([], [])
  | c :: t =>
    if p c then
      match spanTake p t with
      | (run, rest) => (c :: run, rest)
    else ([], c :: t)

/-- First alternative that succeeds (regex alternation / backtracking order). -/
def firstSome {α β : Type} (f : α → Option β) : List α → Option β
  | [] => none
  | a :: t => (f a).orElse (fun _ => firstSome f t)

/-- Match the numeric date pattern `\b\d{1,2}` sep `\d{1,2}` sep `\d{2,4}\b`
(sep a dash or slash) at the current position, with `prev` the character just
before it.  Repetitions are tried greedily. -/
def matchNumDate (prev : Option Char) (s : List Char) : Option (List Char × List Char) :=
  if isWordO prev then none else
  firstSome (fun n1 =>
    (takeCount Char.isDigit n1 s).bind fun r1 =>
    match r1.2 with
    | c1 :: s2 =>
      if isSepChar c1 then
        firstSome (fun n2 =>
          (takeCount Char.isDigit n2 s2).bind fun r2 =>
          match r2.2 with
          | c2 :: s4 =>
            if isSepChar c2 then
              firstSome (fun n3 =>
                (takeCount Char.isDigit n3 s4).bind fun r3 =>
                if isWordO r3.2.head? then none
                else some (r1.1 ++ c1 :: (r2.1 ++ c2 :: r3.1), r3.2)) [4, 3, 2]
            else none
          | [] => none) [2, 1]
      else none
    | [] => none) [2, 1]

/-- The calendar month names in the declared alternation order. -/
def monthNames : List String :=
  ["January", "February", "March", "April", "May", "June", "July",
   "August", "September", "October", "November", "December"]

/-- Case-insensitive literal match returning the original characters. -/
def takeCI : List Char → List Char → Option (List Char × List Char)
  | [], s => some ([], s)
  | _ :: _, [] => none
  | p :: ps, c :: cs =>
    if p.toLower == c.toLower then (takeCI ps cs).map (fun r => (c :: r.1, r.2))
    else none

/-- Match `\b(?:January|...|December)\s+\d{1,2}(?:,\s*\d{4})?` (case
insensitive) at the current position. -/
def matchMonth (prev : Option Char) (s : List Char) : Option (List Char × List Char) :=
  if isWordO prev then none else
  (firstSome (fun mn => takeCI mn.data s) monthNames).bind fun rm =>
  match spanTake isPySpace rm.2 with
  | (sp, s2) =>
    if sp.isEmpty then none else
    firstSome (fun nd =>
      (takeCount Char.isDigit nd s2).bind fun rd =>
      match rd.2 with
      | ',' :: s4 =>
        (match spanTake isPySpace s4 with
         | (sp2, s5) =>
           match takeCount Char.isDigit 4 s5 with
           | some ry => some (rm.1 ++ sp ++ rd.1 ++ ',' :: (sp2 ++ ry.1), ry.2)
           | none => some (rm.1 ++ sp ++ rd.1, rd.2))
      | _ => some (rm.1 ++ sp ++ rd.1, rd.2)) [2, 1]

/-- Backtrack a greedy `[\d,]+` run (given reversed) until the trailing `\b`
holds; dropped characters are handed back to the remaining input. -/
def shrinkToB : List Char → List Char → Option (List Char × List Char)
  | [], _ => none
  | c :: rs, rest =>
    if isWordChar c != isWordO rest.head? then some ((c :: rs).reverse, rest)
    else shrinkToB rs (c :: rest)

/-- The `\s*[\d,]+\b` tail of the currency pattern after a given marker. -/
def currencyTail (marker : List Char) (s1 : List Char) :
    Option (List Char × List Char) :=
  match spanTake isPySpace s1 with
  | (sp, s2) =>
    match spanTake isValChar s2 with
    | (run, s3) =>
      if run.isEmpty then none
      else (shrinkToB run.reverse s3).map (fun r => (marker ++ sp ++ r.1, r.2))

/-- Match `\b(?:Rs\.?|₹)\s*[\d,]+\b` at the current position.  The leading
`\b` sits before the marker: before `R` (a word character) it demands a
non-word predecessor, before `₹` (a non-word character) a word one. -/
def matchCurrency (prev : Option Char) (s : List Char) : Option (List Char × List Char) :=
  match s with
  | 'R' :: 's' :: rest =>
    if isWordO prev then none
    else
      match rest with
      | '.' :: rest2 =>
        (currencyTail ['R', 's', '.'] rest2).orElse
          (fun _ => currencyTail ['R', 's'] ('.' :: rest2))
      | _ => currencyTail ['R', 's'] rest
  | '₹' :: rest => if isWordO prev then currencyTail ['₹'] rest else none
  | _ => none

/-- One `[A-Z][a-z]+` capitalized word. -/
def matchCapWord : List Char → Option (List Char × List Char)
  | [] => none
  | c :: rest =>
    if isUpperAZ c then
      match spanTake isLowerAZ rest with
      | (low, s2) => if low.isEmpty then none else some (c :: low, s2)
    else none

/-- Exactly `n` further `\s+[A-Z][a-z]+` groups. -/
def matchCapGroups : Nat → List Char → Option (List Char × List Char)
  | 0, s => some ([], s)
  | n + 1, s =>
    match spanTake isPySpace s with
    | (sp, s1) =>
      if sp.isEmpty then none
      else (matchCapWord s1).bind fun rw =>
        (matchCapGroups n rw.2).map fun rg => (sp ++ rw.1 ++ rg.1, rg.2)

/-- Match `\b[A-Z][a-z]+(?:\s+[A-Z][a-z]+){0,2}\b` at the current position,
with the group count tried greedily. -/
def matchLocation (prev : Option Char) (s : List Char) : Option (List Char × List Char) :=
  if isWordO prev then none else
  (matchCapWord s).bind fun rw =>
  firstSome (fun g =>
    (matchCapGroups g rw.2).bind fun rg =>
      if isWordO rg.2.head? then none else some (rw.1 ++ rg.1, rg.2)) [2, 1, 0]

/-- `re.findall` driver: scan left to right, emit non-overlapping matches,
resume right after each match.  Fuel is the remaining length. -/
def scanAll (matchAt : Option Char → List Char → Option (List Char × List Char)) :
    Nat → Option Char → List Char → List String
  | 0, _, _ => []
  | _ + 1, _, [] => []
  | fuel + 1, prev, c :: rest =>
    match matchAt prev (c :: rest) with
    | some (matched, rest2) =>
      (⟨matched⟩ : String) :: scanAll matchAt fuel matched.getLast? rest2
    | none => scanAll matchAt fuel (some c) rest

/-- `re.findall(pattern, text)` for one of the scanners above. -/
def findall (matchAt : Option Char → List Char → Option (List Char × List Char))
    (text : String) : List String :=
  scanAll matchAt text.data.length none text.data

/-- The fixed item vocabulary of `EntityExtractionAgent.extract`. -/
def item_keywords : List String :=
  ["phone", "laptop", "car", "house", "land", "jewelry", "money",
   "document", "agreement", "FIR", "complaint"]

/-- The result mapping of `EntityExtractionAgent.extract`. -/
structure Extracted where
  dates : List String
  locations : List String
  values : List String
  items : List String
  parties : List String
deriving DecidableEq

/-- `EntityExtractionAgent.extract`: numeric dates capped at 3 then month-name
dates appended uncapped, values capped at 3, locations at 4, items at 4,
`parties` never populated; every list deduplicated first-seen-order. -/
def extract (text : String) : Extracted :=
  { dates := dedupFirst ((findall matchNumDate text).take 3 ++ findall matchMonth text),
    locations := dedupFirst ((findall matchLocation text).take 4),
    values := dedupFirst ((findall matchCurrency text).take 3),
    items := dedupFirst
      ((item_keywords.filter (fun kw => pyContains (pyLower text) (pyLower kw))).take 4),
    parties := dedupFirst [] }

/-! ## AIAnalyzer (report generation)

The source interpolates `datetime.now().strftime(...)` into every report, so
the clock reading is passed in explicitly as the `now` argument; everything
else is a pure function of the case type and the knowledge graph. -/

/-- The heavy rule of the report headers: 51 box-drawing double-bar
characters, as in the source templates. -/
def heavyBar : String := ⟨List.replicate 51 '═'⟩

/-- The thin rule of the report sections: 49 box-drawing dash characters,
as in the source templates. -/
def thinBar : String := ⟨List.replicate 49 '─'⟩

/-- `AIAnalyzer._analyze_robbery_case`. -/
def analyze_robbery_case (situation : String) (dates locations values items : List String)
    (facts now : String) : String :=
  let analysis : List String :=
    ["CASE OVERVIEW:",
     "This is a robbery case under IPC Section 390-392 (Robbery and Dacoity)."]
    ++ (match dates with
        | [] => []
        | d :: _ => ["The incident occurred on " ++ d ++ ". Time is crucial - report immediately."])
    ++ (match locations with
        | [] => []
        | l :: _ => ["Location: " ++ l ++ ". Evidence collection at the crime scene is vital."])
    ++ (match values with
        | [] => []
        | v :: _ => ["Value involved: " ++ v ++ ". Higher amounts may lead to more severe charges."])
    ++ (match items with
        | [] => []
        | _ :: _ => ["Items taken: " ++ String.intercalate ", " items ++
            ". Document with purchase receipts/serial numbers."])
    ++ ["\nAPPLICABLE LAWS:",
        "• IPC Section 390: Definition of Robbery (theft with force/threat)",
        "• IPC Section 392: Punishment for robbery (up to 10 years + fine)",
        "• If weapon used: IPC Section 397 (robbery with deadly weapon) - up to 14 years",
        "• If injury caused: Enhanced punishment under relevant sections",
        "\nIMMEDIATE ACTIONS REQUIRED:",
        "1. File FIR immediately at the nearest police station (jurisdiction based on crime location)",
        "2. Provide detailed description of perpetrators if seen",
        "3. Request police to preserve CCTV footage from the area",
        "4. Get medical examination done if any injuries sustained",
        "5. Prepare list of stolen items with proof of ownership",
        "6. Identify and contact witnesses immediately",
        "\nEVIDENCE TO COLLECT:",
        "• CCTV footage from crime scene and surrounding areas",
        "• Witness statements (get written statements if possible)",
        "• Photos of crime scene and any damage",
        "• Medical reports if injuries present",
        "• Purchase receipts/serial numbers of stolen items",
        "• Bank statements showing cash withdrawal (if cash stolen)",
        "\nLEGAL TIMELINE:",
        "• FIR should be filed within 24 hours for best results",
        "• CCTV footage may be overwritten after 7-30 days",
        "• Witness memory fades - record statements quickly",
        "\nNEXT STEPS:",
        "1. File FIR today if not already done",
        "2. Engage a criminal lawyer to follow up on investigation",
        "3. Monitor police investigation progress",
        "4. Be prepared to identify accused if caught",
        "5. Keep all evidence organized for trial"]
  heavyBar ++ "\nLEGAL CONSULTATION REPORT - ROBBERY CASE\n" ++ heavyBar ++
  "\n\nCase Type: CRIMINAL - ROBBERY\nGenerated: " ++ now ++ "\n\n" ++ thinBar ++
  "\nCLIENT STATEMENT:\n" ++ situation ++ "\n\n" ++ thinBar ++ "\nFACTS COLLECTED:\n" ++
  (if facts = "" then "Limited information - answer all questions for detailed analysis"
   else facts) ++
  "\n\n" ++ thinBar ++ "\nLEGAL ANALYSIS:\n\n" ++ String.intercalate "\n" analysis ++
  "\n\n" ++ thinBar ++
  "\nCRITICAL REMINDERS:\n⚠ Time is of the essence - evidence deteriorates quickly\n⚠ FIR must be filed immediately\n⚠ This is a serious offense - professional legal representation recommended\n⚠ Cooperate fully with police investigation\n\n" ++
  thinBar ++
  "\nDISCLAIMER:\nThis is a preliminary legal analysis based on the information provided.\nFor case-specific advice and representation, please consult a qualified\ncriminal lawyer immediately. Laws and procedures may vary by state.\n" ++
  heavyBar

/-- `AIAnalyzer._analyze_property_case` (its `dates` argument is unused in the
source as well). -/
def analyze_property_case (situation : String) (dates locations values : List String)
    (facts now : String) : String :=
  let _ := dates
  let analysis : List String :=
    ["CASE OVERVIEW:",
     "This is a property dispute case under relevant civil/property laws."]
    ++ (match locations with
        | [] => []
        | l :: _ => ["Property location: " ++ l ++
            ". Survey records and mutation documents are crucial."])
    ++ (match values with
        | [] => []
        | v :: _ => ["Estimated value: " ++ v ++ ". Property valuation report recommended."])
    ++ ["\nAPPLICABLE LAWS:",
        "• Transfer of Property Act, 1882",
        "• Indian Succession Act, 1925 (if inheritance dispute)",
        "• Specific Relief Act, 1963 (for specific performance)",
        "• Registration Act, 1908 (for property registration)",
        "• State-specific Land Revenue Acts",
        "\nIMMEDIATE ACTIONS REQUIRED:",
        "1. Collect all property documents (sale deed, title deed, mutation records)",
        "2. Get property survey done to verify boundaries",
        "3. Check encumbrance certificate from sub-registrar office",
        "4. Verify ownership chain - trace back 30 years minimum",
        "5. Check for any pending litigation on the property",
        "6. Document any illegal occupation or encroachment with photos/videos",
        "\nDOCUMENTS TO COLLECT:",
        "• Sale/Purchase deed",
        "• Title deed and ownership chain",
        "• Mutation records (7/12 extract, khasra, etc.)",
        "• Property tax receipts",
        "• Encumbrance certificate",
        "• Survey/plot plan",
        "• Building plan approval (if applicable)",
        "• Will/succession certificate (if inheritance case)",
        "\nRESOLUTION OPTIONS:",
        "1. Negotiation and settlement (fastest and cheapest)",
        "2. Mediation through court or private mediator",
        "3. Civil suit in appropriate court",
        "4. Partition suit (if co-owned property)",
        "5. Injunction to prevent alienation/damage",
        "\nNEXT STEPS:",
        "1. Consult a property lawyer with all documents",
        "2. Get legal opinion on ownership status",
        "3. Attempt amicable settlement first",
        "4. If settlement fails, file appropriate civil suit",
        "5. Apply for interim injunction if urgent"]
  heavyBar ++ "\nLEGAL CONSULTATION REPORT - PROPERTY DISPUTE\n" ++ heavyBar ++
  "\n\nCase Type: PROPERTY DISPUTE\nGenerated: " ++ now ++ "\n\n" ++ thinBar ++
  "\nCLIENT STATEMENT:\n" ++ situation ++ "\n\n" ++ thinBar ++ "\nFACTS COLLECTED:\n" ++
  (if facts = "" then "Limited information - answer all questions for detailed analysis"
   else facts) ++
  "\n\n" ++ thinBar ++ "\nLEGAL ANALYSIS:\n\n" ++ String.intercalate "\n" analysis ++
  "\n\n" ++ thinBar ++
  "\nCRITICAL REMINDERS:\n⚠ Property disputes can take years - document everything\n⚠ Verify all documents before making any payment\n⚠ Get title search done by professional lawyer\n⚠ Do not make any physical changes to disputed property\n\n" ++
  thinBar ++
  "\nDISCLAIMER:\nThis is a preliminary legal analysis based on the information provided.\nProperty laws vary by state. Please consult a qualified property lawyer\nfor case-specific advice and representation.\n" ++
  heavyBar

/-- The recommended-steps block of `AIAnalyzer._generate_template_report`. -/
def templateSteps (case_type : String) : String :=
  if case_type = "criminal" then
    "1. File FIR immediately at the nearest police station\n2. Collect and preserve all evidence (photos, documents, CCTV)\n3. Get witness statements recorded\n4. Obtain medical examination report if injuries present\n5. Consult a criminal lawyer for detailed legal strategy"
  else if case_type = "family" then
    "1. Attempt mediation/counseling first if applicable\n2. Gather all relevant documents (marriage certificate, financial records)\n3. Document any incidents with dates and evidence\n4. Consult a family law specialist\n5. Consider filing petition in family court if mediation fails"
  else
    "1. Gather all relevant documents and evidence\n2. Document timeline of events\n3. Identify witnesses if any\n4. Consult appropriate legal specialist\n5. File case in appropriate court if required"

/-- `AIAnalyzer._generate_template_report`. -/
def generate_template_report (case_type subtype situation facts now : String) : String :=
  heavyBar ++ "\nLEGAL CONSULTATION REPORT\n" ++ heavyBar ++
  "\n\nCase Type: " ++ pyUpper case_type ++ "\nSubtype: " ++ subtype ++
  "\nGenerated: " ++ now ++ "\n\n" ++ thinBar ++
  "\nCLIENT STATEMENT:\n" ++ situation ++ "\n\n" ++ thinBar ++ "\nFACTS EXTRACTED:\n" ++
  (if facts = "" then "Limited information available" else facts) ++
  "\n\n" ++ thinBar ++
  "\nLEGAL ANALYSIS:\n\nBased on the information provided, this appears to be a " ++
  case_type ++ " \nmatter requiring immediate attention.\n\nRECOMMENDED LEGAL STEPS:\n" ++
  templateSteps case_type ++
  "\n\nIMPORTANT NOTES:\n• Act promptly - legal timelines are strict\n• Document everything thoroughly\n• Preserve all evidence\n• Consult a qualified lawyer immediately for case-specific advice\n\n" ++
  thinBar ++
  "\nDISCLAIMER:\nThis is a preliminary analysis based on limited information.\nPlease consult a qualified legal professional for authoritative advice.\n" ++
  heavyBar

/-- `AIAnalyzer._generate_enhanced_report`: dispatch on case type/subtype;
theft, murder, assault, family and contract delegate to the generic template
builder exactly as in the source. -/
def generate_enhanced_report (case_type subtype situation facts : String)
    (kg : KnowledgeGraph) (now : String) : String :=
  let dates := (alistGet? kg.entities "dates").getD []
  let locations := (alistGet? kg.entities "locations").getD []
  let values := (alistGet? kg.entities "values").getD []
  let items := (alistGet? kg.entities "items").getD []
  if case_type = "criminal" ∧ subtype = "robbery" then
    analyze_robbery_case situation dates locations values items facts now
  else if case_type = "criminal" ∧ subtype = "theft" then
    generate_template_report "criminal" "theft" situation facts now
  else if case_type = "criminal" ∧ subtype = "murder" then
    generate_template_report "criminal" "murder" situation facts now
  else if case_type = "criminal" ∧ subtype = "assault" then
    generate_template_report "criminal" "assault" situation facts now
  else if case_type = "property" then
    analyze_property_case situation dates locations values facts now
  else if case_type = "family" then
    generate_template_report "family" "family" situation facts now
  else if case_type = "contract" then
    generate_template_report "contract" "contract" situation facts now
  else
    generate_template_report case_type subtype situation facts now

/-- `AIAnalyzer.analyze`: resolve the subtype, build the fact summary from
the non-empty entity lists, and dispatch. -/
def analyze (case_type : String) (kg : KnowledgeGraph) (now : String) : String :=
  let situation := (alistGet? kg.context "situation").getD ""
  let subtype :=
    if case_type = "criminal" then (alistGet? kg.context "criminal_subtype").getD "Unknown"
    else case_type
  let fact_text := String.intercalate "\n"
    ((kg.entities.filter (fun p => !p.2.isEmpty)).map
      (fun p => pyUpper p.1 ++ ": " ++ String.intercalate ", " p.2))
  generate_enhanced_report case_type subtype situation fact_text kg now

/-! ## AgenticLegalSystem sessions (`answer_session`) -/

/-- One stored consultation session (the per-session dict of the source). -/
structure Session where
  query_history : List String
  kg : KnowledgeGraph
  case_type : String
  turns_done : Nat
  max_turns : Int
  asked_questions : List String
  finished : Bool
deriving DecidableEq

/-- The process-wide session store (`self.sessions`), an insertion-ordered
map from session identifier to session state. -/
abbrev SessionStore := List (String × Session)

/-- The per-answer extraction loop: add every extracted entity to the graph,
iterating the extraction result keys in their declaration order. -/
def extract_into (kg : KnowledgeGraph) (text : String) : KnowledgeGraph :=
  let e := extract text
  let add := fun (g : KnowledgeGraph) (ty : String) (vs : List String) =>
    vs.foldl (fun g v => g.add_entity ty v) g
  add (add (add (add (add kg "dates" e.dates) "locations" e.locations)
    "values" e.values) "items" e.items) "parties" e.parties

/-- The knowledge-graph update of one answer turn: extract entities from the
answer, then refresh the `criminal_subtype` context from the situation text
plus all accumulated entity values. -/
def updated_kg (kg : KnowledgeGraph) (answer : String) : KnowledgeGraph :=
  let kg1 := extract_into kg answer
  kg1.set_context "criminal_subtype"
    (detect_crime_subtype
      ((alistGet? kg1.context "situation").getD "" ++ " " ++
        String.intercalate " " ((kg1.entities.map Prod.snd).flatten)))

/-- The history/turn-count/graph mutation performed on every accepted answer,
before the branch on the turn budget. -/
def answered_state (state : Session) (answer : String) : Session :=
  { state with
    query_history := state.query_history ++ [answer],
    turns_done := state.turns_done + 1,
    kg := updated_kg state.kg answer }

/-- The outcome value of `answer_session` handed to the HTTP layer. -/
inductive AnswerOutcome where
  | ask (question : String) (report : String)
  | final (report : String) (structured : List (String × String))
deriving DecidableEq

/-- `AgenticLegalSystem.answer_session`: raise a distinct session-not-found
error for unknown identifiers; otherwise append the answer, bump the turn
counter, update the graph and subtype, regenerate the report, and either ask
the next unseen question or finish the session.  The clock reading used by
the report is the explicit `now` argument. -/
def answer_session (store : SessionStore) (session_id answer now : String) :
    Except String (SessionStore × AnswerOutcome) :=
  match alistGet? store session_id with
  | none => .error "session not found"
  | some state =>
    let state1 := answered_state state answer
    let report := analyze state1.case_type state1.kg now
    if (state1.turns_done : Int) < state1.max_turns then
      match generate_next state1.case_type state1.kg state1.asked_questions with
      | some q =>
        .ok (alistSet store session_id
              { state1 with asked_questions := state1.asked_questions ++ [q] },
            .ask q report)
      | none =>
        .ok (alistSet store session_id { state1 with finished := true },
            .final report [])
    else
      .ok (alistSet store session_id { state1 with finished := true },
          .final report [])

/-- A single already-finished session, used to exhibit that `answer_session`
never consults the `finished` flag. -/
def finishedSession : Session :=
  { query_history := ["q"], kg := .empty, case_type := "general",
    turns_done := 3, max_turns := 3, asked_questions := [], finished := true }

/-- A store holding only `finishedSession`. -/
def finishedStore : SessionStore := [("s", finishedSession)]

/-- An active session one answer away from its turn budget. -/
def lastTurnSession : Session :=
  { query_history := ["q"], kg := .empty, case_type := "general",
    turns_done := 2, max_turns := 3, asked_questions := [], finished := false }

/-- A store holding only `lastTurnSession`. -/
def lastTurnStore : SessionStore := [("s", lastTurnSession)]

/-! ## Helper lemmas -/

theorem dropWhile_head?_false {α : Type} (p : α → Bool) :
    ∀ (l : List α) (a : α), (l.dropWhile p).head? = some a → p a = false := by
  intro l
  induction l with
  | nil => intro a h; simp [List.dropWhile] at h
  | cons c t ih =>
    intro a h
    rw [List.dropWhile_cons] at h
    by_cases hc : p c
    · rw [if_pos hc] at h; exact ih a h
    · rw [if_neg hc] at h
      simp only [List.head?_cons, Option.some.injEq] at h
      subst h
      simpa using hc

theorem stripList_has_nonspace (l : List Char) (h : stripList l ≠ []) :
    ∃ c ∈ stripList l, isPySpace c = false := by
  rcases hB : (l.dropWhile isPySpace).reverse.dropWhile isPySpace with _ | ⟨c, t⟩
  · exact absurd (by simp [stripList, hB]) h
  · exact ⟨c, by simp [stripList, hB],
      dropWhile_head?_false isPySpace (l.dropWhile isPySpace).reverse c (by rw [hB]; rfl)⟩

theorem alistGet?_set_self {α : Type} (l : List (String × α)) (k : String) (v : α) :
    alistGet? (alistSet l k v) k = some v := by
  induction l with
  | nil => simp [alistSet, alistGet?, List.find?]
  | cons p t ih =>
    by_cases hp : p.1 == k
    · simp [alistSet, hp, alistGet?, List.find?]
    · simp only [alistSet, hp, Bool.false_eq_true, if_false]
      simpa [alistGet?, List.find?, hp] using ih

theorem alistGet?_append_some {α : Type} (l : List (String × α)) (k : String) (v : α)
    (h : alistGet? l k = none) : alistGet? (l ++ [(k, v)]) k = some v := by
  have hf : l.find? (fun p => p.1 == k) = none := by
    unfold alistGet? at h
    rcases hf : l.find? (fun p => p.1 == k) with _ | q
    · exact hf
    · rw [hf] at h; simp at h
  unfold alistGet?
  rw [List.find?_append, hf]
  simp [List.find?, Option.or]

theorem mem_alistSet {α : Type} (l : List (String × α)) (k : String) (v : α) :
    ∀ p ∈ alistSet l k v, p = (k, v) ∨ p ∈ l := by
  induction l with
  | nil => intro p hp; simp [alistSet] at hp; simp [hp]
  | cons q t ih =>
    intro p hp
    by_cases hq : q.1 == k
    · simp only [alistSet, hq, if_true] at hp
      rw [List.mem_cons] at hp
      rcases hp with hp | hp
      · exact Or.inl hp
      · exact Or.inr (List.mem_cons_of_mem _ hp)
    · simp only [alistSet, hq, Bool.false_eq_true, if_false] at hp
      rw [List.mem_cons] at hp
      rcases hp with hp | hp
      · exact Or.inr (by simp [hp])
      · rcases ih p hp with h | h
        · exact Or.inl h
        · exact Or.inr (List.mem_cons_of_mem _ h)

theorem alistGet?_mem {α : Type} (l : List (String × α)) (k : String) (v : α)
    (h : alistGet? l k = some v) : ∃ p ∈ l, p.2 = v := by
  unfold alistGet? at h
  rcases hf : l.find? (fun p => p.1 == k) with _ | q
  · rw [hf] at h; simp at h
  · rw [hf] at h
    simp at h
    exact ⟨q, List.mem_of_find?_eq_some hf, h⟩

theorem pyStrip_data (v : String) : (pyStrip v).data = stripList v.data := rfl

theorem pyStrip_ne_nil {v : String} (h : pyStrip v ≠ "") : stripList v.data ≠ [] := by
  intro hc
  exact h (by apply String.ext; simpa [pyStrip_data] using hc)

theorem add_entity_noop_blank (kg : KnowledgeGraph) (ty v : String)
    (hg : ¬(v ≠ "" ∧ pyStrip v ≠ "")) : kg.add_entity ty v = kg := by
  unfold KnowledgeGraph.add_entity
  rw [if_neg hg]

theorem add_entity_new_key (kg : KnowledgeGraph) (ty v : String)
    (hg : v ≠ "" ∧ pyStrip v ≠ "") (hget : alistGet? kg.entities ty = none) :
    kg.add_entity ty v = { kg with entities := kg.entities ++ [(ty, [pyStrip v])] } := by
  unfold KnowledgeGraph.add_entity
  rw [if_pos hg, hget]

theorem add_entity_mem_noop (kg : KnowledgeGraph) (ty v : String) (l : List String)
    (hl : alistGet? kg.entities ty = some l) (hv : v ∈ l) :
    kg.add_entity ty v = kg := by
  unfold KnowledgeGraph.add_entity
  by_cases hg : v ≠ "" ∧ pyStrip v ≠ ""
  · rw [if_pos hg, hl]
    simp [hv]
  · rw [if_neg hg]

theorem add_entity_append (kg : KnowledgeGraph) (ty v : String) (l : List String)
    (hg : v ≠ "" ∧ pyStrip v ≠ "") (hl : alistGet? kg.entities ty = some l) (hv : v ∉ l) :
    kg.add_entity ty v =
      { kg with entities := alistSet kg.entities ty (l ++ [pyStrip v]) } := by
  unfold KnowledgeGraph.add_entity
  rw [if_pos hg, hl]
  simp [hv]

theorem pyStrip_nonblank {v : String} (h : pyStrip v ≠ "") :
    ∃ c ∈ (pyStrip v).data, isPySpace c = false := by
  rw [pyStrip_data]
  exact stripList_has_nonspace v.data (pyStrip_ne_nil h)

/-- C2 (amended): `add_entity` is a no-op for blank values and for values
whose *untrimmed* form is already present in that type's list, and otherwise
appends the trimmed value; it is idempotent, never records a blank entry,
and keeps every list duplicate-free, for every value equal to its own trim
(the membership test uses the untrimmed value, so untrimmed duplicates can
slip through — see the counterexample). -/
theorem add_entity_spec (kg : KnowledgeGraph) (ty v : String) :
    (pyStrip v = "" → kg.add_entity ty v = kg) ∧
    (∀ l, alistGet? kg.entities ty = some l → v ∈ l → kg.add_entity ty v = kg) ∧
    (pyStrip v = v → (kg.add_entity ty v).add_entity ty v = kg.add_entity ty v) ∧
    (entriesNonBlank kg → entriesNonBlank (kg.add_entity ty v)) ∧
    (pyStrip v = v → entriesNodup kg → entriesNodup (kg.add_entity ty v)) := by
  refine ⟨?_, ?_, ?_, ?_, ?_⟩
  · intro h
    exact add_entity_noop_blank kg ty v (fun hc => hc.2 h)
  · intro l hl hv
    exact add_entity_mem_noop kg ty v l hl hv
  · intro htrim
    by_cases hg : v ≠ "" ∧ pyStrip v ≠ ""
    · rcases hget : alistGet? kg.entities ty with _ | l
      · rw [add_entity_new_key kg ty v hg hget]
        exact add_entity_mem_noop _ ty v [pyStrip v]
          (alistGet?_append_some kg.entities ty [pyStrip v] hget) (by simp [htrim])
      · by_cases hv : v ∈ l
        · rw [add_entity_mem_noop kg ty v l hget hv, add_entity_mem_noop kg ty v l hget hv]
        · rw [add_entity_append kg ty v l hg hget hv]
          exact add_entity_mem_noop _ ty v (l ++ [pyStrip v])
            (alistGet?_set_self kg.entities ty (l ++ [pyStrip v])) (by simp [htrim])
    · rw [add_entity_noop_blank kg ty v hg, add_entity_noop_blank kg ty v hg]
  · intro hnb
    by_cases hg : v ≠ "" ∧ pyStrip v ≠ ""
    · rcases hget : alistGet? kg.entities ty with _ | l
      · rw [add_entity_new_key kg ty v hg hget]
        intro p hp e he
        rw [List.mem_append] at hp
        rcases hp with hp | hp
        · exact hnb p hp e he
        · rw [List.mem_singleton] at hp
          subst hp
          rw [List.mem_singleton] at he
          subst he
          exact pyStrip_nonblank hg.2
      · by_cases hv : v ∈ l
        · rw [add_entity_mem_noop kg ty v l hget hv]; exact hnb
        · rw [add_entity_append kg ty v l hg hget hv]
          intro p hp e he
          rcases mem_alistSet kg.entities ty (l ++ [pyStrip v]) p hp with hp | hp
          · subst hp
            rw [List.mem_append] at he
            rcases he with he | he
            · rcases alistGet?_mem kg.entities ty l hget with ⟨q, hq, hq2⟩
              exact hnb q hq e (by rw [hq2]; exact he)
            · rw [List.mem_singleton] at he
              subst he
              exact pyStrip_nonblank hg.2
          · exact hnb p hp e he
    · rw [add_entity_noop_blank kg ty v hg]; exact hnb
  · intro htrim hnd
    by_cases hg : v ≠ "" ∧ pyStrip v ≠ ""
    · rcases hget : alistGet? kg.entities ty with _ | l
      · rw [add_entity_new_key kg ty v hg hget]
        intro p hp
        rw [List.mem_append] at hp
        rcases hp with hp | hp
        · exact hnd p hp
        · rw [List.mem_singleton] at hp
          subst hp
          simp
      · by_cases hv : v ∈ l
        · rw [add_entity_mem_noop kg ty v l hget hv]; exact hnd
        · rw [add_entity_append kg ty v l hg hget hv]
          intro p hp
          rcases mem_alistSet kg.entities ty (l ++ [pyStrip v]) p hp with hp | hp
          · subst hp
            rw [htrim]
            rcases alistGet?_mem kg.entities ty l hget with ⟨q, hq, hq2⟩
            have hl : l.Nodup := by rw [← hq2]; exact hnd q hq
            rw [List.nodup_append]
            refine ⟨hl, List.nodup_singleton v, ?_⟩
            intro a ha hav
            rw [List.mem_singleton] at hav
            subst hav
            exact hv ha
          · exact hnd p hp
    · rw [add_entity_noop_blank kg ty v hg]; exact fun _ => hnd _

/-- C2 counterexample: adding the value with surrounding whitespace twice
appends twice — the second membership test compares the untrimmed value
against the trimmed stored one — so the list gains a duplicate and the
second call is not a no-op, refuting the claim as stated. -/
theorem add_entity_untrimmed_duplicate :
    (KnowledgeGraph.add_entity
        (KnowledgeGraph.add_entity .empty "items" " x ") "items" " x ").entities =
      [("items", ["x", "x"])] ∧
    ¬ (KnowledgeGraph.add_entity
        (KnowledgeGraph.add_entity .empty "items" " x ") "items" " x " =
       KnowledgeGraph.add_entity .empty "items" " x ") ∧
    ¬ (["x", "x"] : List String).Nodup := by
  refine ⟨by decide, by decide, by decide⟩

theorem pyMaxByVal_four (n1 n2 n3 n4 : String) (a b c d : Nat) :
    pyMaxByVal ("general", 0) [(n1, a), (n2, b), (n3, c), (n4, d)] =
      ((if a = max (max (max a b) c) d then n1
        else if b = max (max (max a b) c) d then n2
        else if c = max (max (max a b) c) d then n3 else n4),
       max (max (max a b) c) d) := by
  simp only [pyMaxByVal, List.foldl_cons, List.foldl_nil]
  split_ifs <;> first | (exact Prod.ext rfl (by omega)) | (exfalso; omega)

/-- C6: `initial_classify` returns `("general", 1/2)` exactly when every
category keyword count is zero (in particular on the empty query), and
otherwise the declaration-order-first category attaining the maximal count
with confidence `min(count/5, 1)`; the confidence always lies in `[0, 1]`. -/
theorem initial_classify_spec (query : String) :
    (initial_classify "" = ("general", 1/2)) ∧
    (0 ≤ (initial_classify query).2 ∧ (initial_classify query).2 ≤ 1) ∧
    (max (max (max (kwScore criminalKeywords (pyLower query))
          (kwScore familyKeywords (pyLower query)))
          (kwScore propertyKeywords (pyLower query)))
          (kwScore contractKeywords (pyLower query)) = 0 →
      initial_classify query = ("general", 1/2)) ∧
    (0 < max (max (max (kwScore criminalKeywords (pyLower query))
          (kwScore familyKeywords (pyLower query)))
          (kwScore propertyKeywords (pyLower query)))
          (kwScore contractKeywords (pyLower query)) →
      initial_classify query =
        ((if kwScore criminalKeywords (pyLower query) =
            max (max (max (kwScore criminalKeywords (pyLower query))
              (kwScore familyKeywords (pyLower query)))
              (kwScore propertyKeywords (pyLower query)))
              (kwScore contractKeywords (pyLower query)) then "criminal"
          else if kwScore familyKeywords (pyLower query) =
            max (max (max (kwScore criminalKeywords (pyLower query))
              (kwScore familyKeywords (pyLower query)))
              (kwScore propertyKeywords (pyLower query)))
              (kwScore contractKeywords (pyLower query)) then "family"
          else if kwScore propertyKeywords (pyLower query) =
            max (max (max (kwScore criminalKeywords (pyLower query))
              (kwScore familyKeywords (pyLower query)))
              (kwScore propertyKeywords (pyLower query)))
              (kwScore contractKeywords (pyLower query)) then "property"
          else "contract"),
         min (((max (max (max (kwScore criminalKeywords (pyLower query))
              (kwScore familyKeywords (pyLower query)))
              (kwScore propertyKeywords (pyLower query)))
              (kwScore contractKeywords (pyLower query)) : Nat) : ℚ) / 5) 1)) := by
  refine ⟨rfl, ?_, ?_, ?_⟩
  · simp only [initial_classify]
    split
    · norm_num
    · rw [case_keywords]
      simp only [List.map_cons, List.map_nil]
      rw [pyMaxByVal_four]
      constructor
      · refine le_min ?_ (by norm_num)
        positivity
      · exact min_le_right _ _
  · intro h
    have hcond : ((case_keywords.map
        (fun p => (p.1, kwScore p.2 (pyLower query)))).map Prod.snd).foldl max 0 = 0 := by
      simp only [case_keywords, List.map_cons, List.map_nil, List.foldl_cons, List.foldl_nil]
      omega
    simp only [initial_classify]
    rw [if_pos hcond]
  · intro h
    have hcond : ¬ ((case_keywords.map
        (fun p => (p.1, kwScore p.2 (pyLower query)))).map Prod.snd).foldl max 0 = 0 := by
      simp only [case_keywords, List.map_cons, List.map_nil, List.foldl_cons, List.foldl_nil]
      omega
    simp only [initial_classify]
    rw [if_neg hcond, case_keywords]
    simp only [List.map_cons, List.map_nil]
    rw [pyMaxByVal_four]

/-- C5 (amended): `detect_crime_subtype` returns "theft" when every offense
subtype scores zero, and otherwise the declaration-order-first subtype
(murder, theft, robbery, assault) attaining the maximal keyword count — ties
are broken by declaration order, not by defaulting to "theft". -/
theorem detect_crime_subtype_spec (text : String) :
    (max (max (max (kwScore murderKeywords (pyLower text))
          (kwScore theftKeywords (pyLower text)))
          (kwScore robberyKeywords (pyLower text)))
          (kwScore assaultKeywords (pyLower text)) = 0 →
      detect_crime_subtype text = "theft") ∧
    (0 < max (max (max (kwScore murderKeywords (pyLower text))
          (kwScore theftKeywords (pyLower text)))
          (kwScore robberyKeywords (pyLower text)))
          (kwScore assaultKeywords (pyLower text)) →
      detect_crime_subtype text =
        (if kwScore murderKeywords (pyLower text) =
            max (max (max (kwScore murderKeywords (pyLower text))
              (kwScore theftKeywords (pyLower text)))
              (kwScore robberyKeywords (pyLower text)))
              (kwScore assaultKeywords (pyLower text)) then "murder"
         else if kwScore theftKeywords (pyLower text) =
            max (max (max (kwScore murderKeywords (pyLower text))
              (kwScore theftKeywords (pyLower text)))
              (kwScore robberyKeywords (pyLower text)))
              (kwScore assaultKeywords (pyLower text)) then "theft"
         else if kwScore robberyKeywords (pyLower text) =
            max (max (max (kwScore murderKeywords (pyLower text))
              (kwScore theftKeywords (pyLower text)))
              (kwScore robberyKeywords (pyLower text)))
              (kwScore assaultKeywords (pyLower text)) then "robbery"
         else "assault")) := by
  constructor
  · intro h
    simp only [detect_crime_subtype, OFFENSE_KEYWORDS, List.foldl_cons, List.foldl_nil]
    split_ifs <;> first | rfl | (exfalso; omega)
  · intro h
    simp only [detect_crime_subtype, OFFENSE_KEYWORDS, List.foldl_cons, List.foldl_nil]
    split_ifs <;> first | rfl | (exfalso; omega)

/-- C5 counterexample: on "murder robbery" the murder and robbery subtypes tie
at one keyword hit each (and all scores are not all zero), yet the result is
"murder", not the claimed tie-default "theft". -/
theorem detect_crime_subtype_tie_not_theft :
    kwScore murderKeywords (pyLower "murder robbery") = 1 ∧
    kwScore robberyKeywords (pyLower "murder robbery") = 1 ∧
    kwScore theftKeywords (pyLower "murder robbery") = 0 ∧
    kwScore assaultKeywords (pyLower "murder robbery") = 0 ∧
    detect_crime_subtype "murder robbery" = "murder" := by
  refine ⟨by decide, by decide, by decide, by decide, by decide⟩

theorem find?_eq_head?_filter {α : Type} (p : α → Bool) :
    ∀ l : List α, l.find? p = (l.filter p).head? := by
  intro l
  induction l with
  | nil => rfl
  | cons a t ih =>
    by_cases h : p a
    · rw [List.find?_cons_of_pos _ h, List.filter_cons_of_pos h]
      rfl
    · rw [List.find?_cons_of_neg _ (by simpa using h),
        List.filter_cons_of_neg (by simpa using h)]
      exact ih

theorem generate_from_eq_find? (asked : List String) :
    ∀ templates : List (String × List String),
      generate_from templates asked =
        (templates.flatMap Prod.snd).find? (fun q => !asked.contains q) := by
  intro templates
  induction templates with
  | nil => rfl
  | cons p rest ih =>
    rcases p with ⟨topic, questions⟩
    rcases hf : questions.filter (fun q => !asked.contains q) with _ | ⟨q, t⟩
    · have hnone : questions.find? (fun q => !asked.contains q) = none := by
        rw [find?_eq_head?_filter, hf]
        rfl
      simp only [generate_from, hf]
      rw [List.flatMap_cons, List.find?_append, hnone, ih]
      rfl
    · have hsome : questions.find? (fun q => !asked.contains q) = some q := by
        rw [find?_eq_head?_filter, hf]
        rfl
      simp only [generate_from, hf]
      rw [List.flatMap_cons, List.find?_append, hsome]
      rfl

/-- C3: `generate_next` is exactly the first question of the resolved
template set (flattened in declared topic order) not yet in `askedList`: it
never repeats an asked question, and it returns `none` precisely when every
question of the resolved set has been asked. -/
theorem generate_next_spec (case_type : String) (kg : KnowledgeGraph) (asked : List String) :
    (generate_next case_type kg asked =
      ((resolve_templates case_type kg).flatMap Prod.snd).find?
        (fun q => !asked.contains q)) ∧
    (∀ q, generate_next case_type kg asked = some q → q ∉ asked) ∧
    (generate_next case_type kg asked = none ↔
      ∀ q ∈ (resolve_templates case_type kg).flatMap Prod.snd, q ∈ asked) := by
  have hmain : generate_next case_type kg asked =
      ((resolve_templates case_type kg).flatMap Prod.snd).find?
        (fun q => !asked.contains q) :=
    generate_from_eq_find? asked (resolve_templates case_type kg)
  refine ⟨hmain, ?_, ?_⟩
  · intro q hq
    rw [hmain] at hq
    have := List.find?_some hq
    simpa using this
  · rw [hmain]
    constructor
    · intro hn q hq
      have := List.find?_eq_none.mp hn q hq
      simpa using this
    · intro hall
      apply List.find?_eq_none.mpr
      intro q hq
      simpa using hall q hq

theorem dedupFirst_nodup : ∀ l : List String, (dedupFirst l).Nodup := by
  intro l
  induction l with
  | nil => simp [dedupFirst]
  | cons a t ih =>
    simp only [dedupFirst]
    rw [List.nodup_cons]
    refine ⟨?_, ih.filter _⟩
    intro hmem
    rw [List.mem_filter] at hmem
    simp at hmem

theorem dedupFirst_length_le : ∀ l : List String, (dedupFirst l).length ≤ l.length := by
  intro l
  induction l with
  | nil => simp [dedupFirst]
  | cons a t ih =>
    simp only [dedupFirst, List.length_cons]
    have := List.length_filter_le (fun b => b != a) (dedupFirst t)
    omega

/-- C8: every list returned by `extract` is duplicate-free, the per-rule caps
hold (3 currency values, 4 locations, 4 items, and 3 numeric dates before the
uncapped month-name dates are appended), and the empty text yields all-empty
lists. -/
theorem extract_spec (text : String) :
    (extract text).dates.Nodup ∧ (extract text).locations.Nodup ∧
    (extract text).values.Nodup ∧ (extract text).items.Nodup ∧
    (extract text).values.length ≤ 3 ∧ (extract text).locations.length ≤ 4 ∧
    (extract text).items.length ≤ 4 ∧
    (extract text).dates =
      dedupFirst ((findall matchNumDate text).take 3 ++ findall matchMonth text) ∧
    ((findall matchNumDate text).take 3).length ≤ 3 ∧
    extract "" = ⟨[], [], [], [], []⟩ := by
  refine ⟨dedupFirst_nodup _, dedupFirst_nodup _, dedupFirst_nodup _, dedupFirst_nodup _,
    ?_, ?_, ?_, rfl, List.length_take_le _ _, by decide⟩
  · exact le_trans (dedupFirst_length_le _) (List.length_take_le _ _)
  · exact le_trans (dedupFirst_length_le _) (List.length_take_le _ _)
  · exact le_trans (dedupFirst_length_le _) (List.length_take_le _ _)

/-- C10: `extract` always returns a `parties` entry alongside the four
documented entity types, and no rule ever populates it: it is always empty. -/
theorem extract_parties_empty (text : String) : (extract text).parties = [] := rfl

theorem heavyBar_length_pos : 0 < heavyBar.length := by decide

theorem analyze_robbery_case_length (situation : String)
    (dates locations values items : List String) (facts now : String) :
    (analyze_robbery_case situation dates locations values items facts now).length =
      (analyze_robbery_case situation dates locations values items facts "").length +
        now.length := by
  simp only [analyze_robbery_case, String.length_append, String.length_empty]
  omega

theorem analyze_property_case_length (situation : String)
    (dates locations values : List String) (facts now : String) :
    (analyze_property_case situation dates locations values facts now).length =
      (analyze_property_case situation dates locations values facts "").length +
        now.length := by
  simp only [analyze_property_case, String.length_append, String.length_empty]
  omega

theorem generate_template_report_length (case_type subtype situation facts now : String) :
    (generate_template_report case_type subtype situation facts now).length =
      (generate_template_report case_type subtype situation facts "").length +
        now.length := by
  simp only [generate_template_report, String.length_append, String.length_empty]
  omega

theorem analyze_length_now (case_type : String) (kg : KnowledgeGraph) (now : String) :
    (analyze case_type kg now).length = (analyze case_type kg "").length + now.length := by
  simp only [analyze, generate_enhanced_report]
  split_ifs <;>
    simp only [analyze_robbery_case, analyze_property_case, generate_template_report,
      String.length_append, String.length_empty] <;>
    omega

theorem analyze_length_pos (case_type : String) (kg : KnowledgeGraph) (now : String) :
    0 < (analyze case_type kg now).length := by
  have hb : 0 < heavyBar.length := heavyBar_length_pos
  simp only [analyze, generate_enhanced_report]
  split_ifs <;>
    simp only [analyze_robbery_case, analyze_property_case, generate_template_report,
      String.length_append] <;>
    omega

/-- C9 (amended): classification, extraction and question selection are pure
functions of their inputs; report rendering is deterministic only given the
clock reading it interpolates — with the same clock string the report is
determined by (caseType, KnowledgeGraph), its length is the clock-free length
plus the clock string's length, and equal reports force equal clock lengths. -/
theorem core_determinism (query text case_type : String) (kg : KnowledgeGraph)
    (asked : List String) (now now2 : String) :
    (initial_classify query = initial_classify query) ∧
    (extract text = extract text) ∧
    (generate_next case_type kg asked = generate_next case_type kg asked) ∧
    (now = now2 → analyze case_type kg now = analyze case_type kg now2) ∧
    ((analyze case_type kg now).length = (analyze case_type kg "").length + now.length) ∧
    (analyze case_type kg now = analyze case_type kg now2 → now.length = now2.length) := by
  refine ⟨rfl, rfl, rfl, fun h => by rw [h], analyze_length_now _ _ _, ?_⟩
  intro h
  have h1 := analyze_length_now case_type kg now
  have h2 := analyze_length_now case_type kg now2
  rw [h] at h1
  omega

/-- C9 counterexample: report rendering is not deterministic in the input
text and knowledge-graph state alone — the same case type and graph rendered
at two different clock readings give different report strings, because the
wall-clock timestamp is interpolated into the document. -/
theorem analyze_clock_dependent :
    analyze "general" KnowledgeGraph.empty "2024-01-01 00:00:00" ≠
      analyze "general" KnowledgeGraph.empty "2024-01-01 00:00:01 " := by
  intro h
  have h1 := analyze_length_now "general" KnowledgeGraph.empty "2024-01-01 00:00:00"
  have h2 := analyze_length_now "general" KnowledgeGraph.empty "2024-01-01 00:00:01 "
  rw [h] at h1
  have hlen : ("2024-01-01 00:00:00" : String).length =
      ("2024-01-01 00:00:01 " : String).length := by omega
  exact absurd hlen (by decide)

/-- C7: `answer_session` fails exactly on identifiers absent from the session
store, with the distinct catchable "session not found" error (the only error
it ever produces), and in that case returns no updated store at all. -/
theorem answer_session_not_found (store : SessionStore) (sid ans now : String) :
    (answer_session store sid ans now = .error "session not found" ↔
      alistGet? store sid = none) ∧
    (∀ e, answer_session store sid ans now = .error e → e = "session not found") ∧
    (alistGet? store sid = none →
      ∀ out, answer_session store sid ans now ≠ .ok out) := by
  rcases hget : alistGet? store sid with _ | st
  · have he : answer_session store sid ans now = .error "session not found" := by
      simp only [answer_session, hget]
    refine ⟨⟨fun _ => rfl, fun _ => he⟩, ?_, ?_⟩
    · intro e h
      rw [he] at h
      injection h with h2
      exact h2.symm
    · intro _ out h
      rw [he] at h
      exact Except.noConfusion h
  · have hne : ∀ e, answer_session store sid ans now ≠ .error e := by
      intro e h
      simp only [answer_session, hget] at h
      split at h
      · split at h <;> exact Except.noConfusion h
      · exact Except.noConfusion h
    refine ⟨⟨fun h => absurd h (hne _), fun h => Option.noConfusion h⟩, ?_, ?_⟩
    · intro e h
      exact absurd h (hne e)
    · intro h
      exact Option.noConfusion h

/-- C1 (amended): `answer_session` never consults the `finished` flag — a
call on a finished session is processed like any other answer: it is accepted,
appended to the history, and the turn counter is incremented. -/
theorem answer_session_ignores_finished (store : SessionStore) (sid ans now : String)
    (st : Session) (hget : alistGet? store sid = some st) (_hfin : st.finished = true) :
    ∃ store2 out, answer_session store sid ans now = .ok (store2, out) ∧
      ∃ st2, alistGet? store2 sid = some st2 ∧
        st2.query_history = st.query_history ++ [ans] ∧
        st2.turns_done = st.turns_done + 1 := by
  by_cases hc : ((answered_state st ans).turns_done : Int) < (answered_state st ans).max_turns
  · rcases hgen : generate_next (answered_state st ans).case_type (answered_state st ans).kg
        (answered_state st ans).asked_questions with _ | q
    · refine ⟨alistSet store sid { answered_state st ans with finished := true },
        .final (analyze (answered_state st ans).case_type (answered_state st ans).kg now) [],
        ?_, { answered_state st ans with finished := true },
        alistGet?_set_self _ _ _, rfl, rfl⟩
      simp only [answer_session, hget, hc, hgen, if_true]
    · refine ⟨alistSet store sid
          { answered_state st ans with
            asked_questions := (answered_state st ans).asked_questions ++ [q] },
        .ask q (analyze (answered_state st ans).case_type (answered_state st ans).kg now),
        ?_, { answered_state st ans with
              asked_questions := (answered_state st ans).asked_questions ++ [q] },
        alistGet?_set_self _ _ _, rfl, rfl⟩
      simp only [answer_session, hget, hc, hgen, if_true]
  · refine ⟨alistSet store sid { answered_state st ans with finished := true },
      .final (analyze (answered_state st ans).case_type (answered_state st ans).kg now) [],
      ?_, { answered_state st ans with finished := true },
      alistGet?_set_self _ _ _, rfl, rfl⟩
    simp only [answer_session, hget, hc, if_false]

/-- C1 witness: on a concrete finished session the theorem yields an accepted
answer with extended history and bumped turn counter. -/
theorem answer_session_ignores_finished_witness :
    ∃ store2 out, answer_session finishedStore "s" "a" "t" = .ok (store2, out) ∧
      ∃ st2, alistGet? store2 "s" = some st2 ∧
        st2.query_history = finishedSession.query_history ++ ["a"] ∧
        st2.turns_done = finishedSession.turns_done + 1 :=
  answer_session_ignores_finished finishedStore "s" "a" "t" finishedSession rfl rfl

/-- C1 counterexample: the stored session has `finished = true` and
`turns_done = 3`, yet a further `answer_session` call is accepted and leaves
the session with `turns_done = 4` and the answer appended to its history —
refuting that a finished session accepts no further answers. -/
theorem answer_session_after_finished_mutates :
    (alistGet? finishedStore "s").map Session.finished = some true ∧
    (alistGet? finishedStore "s").map Session.turns_done = some 3 ∧
    (answer_session finishedStore "s" "a" "t").toOption.map
      (fun p => (alistGet? p.1 "s").map (fun st => (st.turns_done, st.query_history))) =
      some (some (4, ["q", "a"])) := by
  refine ⟨rfl, rfl, rfl⟩

/-- C4: for a known session, `answer_session` appends the answer and
increments the turn counter; if the incremented count is still strictly below
the turn budget and an unseen question exists, it records that question as
asked and returns an `ask` outcome with a report; otherwise (budget reached
or questions exhausted) it marks the session finished and returns a `final`
outcome with a non-empty report and an empty structured map — in particular
on the answer that makes `turns_done` equal `max_turns`. -/
theorem answer_session_spec (store : SessionStore) (sid ans now : String)
    (st : Session) (hget : alistGet? store sid = some st) :
    ((answered_state st ans).query_history = st.query_history ++ [ans] ∧
     (answered_state st ans).turns_done = st.turns_done + 1) ∧
    (∀ q, (((st.turns_done + 1 : Nat) : Int) < st.max_turns) →
      generate_next st.case_type (updated_kg st.kg ans) st.asked_questions = some q →
      answer_session store sid ans now =
        .ok (alistSet store sid
              { answered_state st ans with asked_questions := st.asked_questions ++ [q] },
            .ask q (analyze st.case_type (updated_kg st.kg ans) now))) ∧
    ((¬ (((st.turns_done + 1 : Nat) : Int) < st.max_turns) ∨
      generate_next st.case_type (updated_kg st.kg ans) st.asked_questions = none) →
      answer_session store sid ans now =
        .ok (alistSet store sid { answered_state st ans with finished := true },
            .final (analyze st.case_type (updated_kg st.kg ans) now) []) ∧
      0 < (analyze st.case_type (updated_kg st.kg ans) now).length) ∧
    (((st.turns_done + 1 : Nat) : Int) = st.max_turns →
      answer_session store sid ans now =
        .ok (alistSet store sid { answered_state st ans with finished := true },
            .final (analyze st.case_type (updated_kg st.kg ans) now) []) ∧
      0 < (analyze st.case_type (updated_kg st.kg ans) now).length) := by
  refine ⟨⟨rfl, rfl⟩, ?_, ?_, ?_⟩
  · intro q hc hgen
    simp only [answer_session, answered_state, hget, hgen, hc, if_true]
  · intro hfin
    refine ⟨?_, analyze_length_pos _ _ _⟩
    rcases hfin with hc | hgen
    · simp only [answer_session, answered_state, hget, hc, if_false]
    · by_cases hc : (((st.turns_done + 1 : Nat) : Int) < st.max_turns)
      · simp only [answer_session, answered_state, hget, hgen, hc, if_true]
      · simp only [answer_session, answered_state, hget, hc, if_false]
  · intro heq
    refine ⟨?_, analyze_length_pos _ _ _⟩
    have hc : ¬ (((st.turns_done + 1 : Nat) : Int) < st.max_turns) := by omega
    simp only [answer_session, answered_state, hget, hc, if_false]

/-- C4 witness: a concrete session two turns into a three-turn budget — the
third answer reaches the budget and the theorem yields the non-empty final
report. -/
theorem answer_session_spec_witness :
    0 < (analyze lastTurnSession.case_type (updated_kg lastTurnSession.kg "a") "t").length :=
  ((answer_session_spec lastTurnStore "s" "a" "t" lastTurnSession rfl).2.2.2
    (by decide)).2

/-! ## Conformance checks

Concrete evaluations of the embedded operations, matching the observable
behavior of the Python source (including the `re.findall` corner cases such
as word boundaries, greedy backtracking and non-overlapping scanning). -/

example : pyStrip " x " = "x" := by decide
example :
    (KnowledgeGraph.add_entity
      (KnowledgeGraph.add_entity .empty "items" " x ") "items" " x ").entities =
    [("items", ["x", "x"])] := by decide
example : pyContains "murder robbery" "murder" = true := by decide
example : dedupFirst ["a", "b", "a", "c"] = ["a", "b", "c"] := by decide
example : initial_classify "" = ("general", 1/2) := by rfl
example : detect_crime_subtype "murder robbery" = "murder" := by decide
example : detect_crime_subtype "hello" = "theft" := by decide
example : (initial_classify "theft of my phone by a burglar").1 = "criminal" := by decide
example :
    generate_next "criminal" (KnowledgeGraph.empty.set_context "criminal_subtype" "robbery")
      ["When did the robbery occur?"] =
    some "Where exactly did it happen? (street / shop / home)" := by decide
example : findall matchNumDate "on 12/05/2024 x" = ["12/05/2024"] := by decide
example : findall matchNumDate "1/2/20245" = [] := by decide
example : findall matchMonth "met on January 15, 2024 ok" = ["January 15, 2024"] := by decide
example : findall matchMonth "met on january 15" = ["january 15"] := by decide
example : findall matchCurrency "paid Rs. 5,000 now" = ["Rs. 5,000"] := by decide
example : findall matchCurrency "x₹100" = ["₹100"] := by decide
example : findall matchCurrency "₹100" = [] := by decide
example : findall matchCurrency "Rs 1,x" = ["Rs 1,"] := by decide
example : findall matchCurrency "ok Rs 1,," = ["Rs 1"] := by decide
example : findall matchLocation "went to New Delhi Gate area" =
    ["New Delhi Gate"] := by decide
example : findall matchLocation "New Delhi9" = ["New"] := by decide
example : (extract "my phone was stolen at My Shop on 12/05/2024 worth Rs. 5,000").items =
    ["phone"] := by decide
example : extract "" = ⟨[], [], [], [], []⟩ := by decide
example : findall matchNumDate "a1/2/33" = [] := by decide
example : findall matchNumDate "12-3-45b" = [] := by decide
example : findall matchNumDate "5/6/789" = ["5/6/789"] := by decide
example : findall matchMonth "May 12,345 x" = ["May 12"] := by decide
example : findall matchMonth "Decemberish 5" = [] := by decide
example : findall matchMonth "May  3" = ["May  3"] := by decide
example : findall matchCurrency "Rs.x 9" = [] := by decide
example : findall matchCurrency "aRs 5" = [] := by decide
example : findall matchCurrency "Rs5" = ["Rs5"] := by decide
example : findall matchLocation "A Bc De Fg Hi" = ["Bc De Fg", "Hi"] := by decide
example : findall matchLocation "my phone was stolen at My Shop on 12/05/2024 worth Rs. 5,000" =
    ["My Shop", "Rs"] := by decide
